import Mathlib

/-!
Verification of the `stt-worker` relay handler (`src/index.ts`).

The source file contains two versions of the same Cloudflare-Worker
handler (the first at lines 1 to 181, the second at lines 182 to 317).
Both export a single `fetch(request, env)` entry point that

* redirects `/favicon.ico` to a fixed icon URL,
* serves an HTML demo page for `GET /`,
* answers 405 to every other non-POST request,
* and, for POST requests, checks credentials, rejects empty bodies,
  base64-encodes the body, exchanges credentials for a bearer token and
  relays the audio to the Google speech API, reshaping the answer.

The embedding below models each version as a pure function from the
request, the environment, and two stubs (the token exchange and the
outbound speech-API call) to an optional HTTP response; `none` models an
exception escaping the handler (only reachable through a failing stub or
a `btoa` range error, both of which cannot occur on real inputs).
-/

/-- An incoming HTTP request, as the handler observes it: the method, the
parsed pathname and query string of the URL, the header list, and the
body read by `request.arrayBuffer()`, modelled as the list of its byte
values (each `< 256` for a real buffer). -/
structure Req where
  method : String
  pathname : String
  search : String
  headers : List (String × String)
  body : List Nat
deriving DecidableEq, Repr

/-- The worker environment: `env.SHEETS_SERVICE_KEY_JSON`, the
JSON-encoded service-account credential blob, `none` when the
configuration value is absent. -/
structure Env where
  SHEETS_SERVICE_KEY_JSON : Option String
deriving DecidableEq, Repr

/-- An outgoing HTTP response: status, the explicitly set headers (in the
order the source sets them), and the body text. -/
structure Resp where
  status : Nat
  headers : List (String × String)
  body : String
deriving DecidableEq, Repr

/-- JavaScript truthiness of an optional string (`!env.X` in the source):
`undefined` and the empty string are falsy, every other string truthy. -/
def jsTruthyStr : Option String → Bool
  | none => false
  | some s => !(s == "")

/-- `Response.redirect(url)`: a 302 response with a `Location` header and
an empty body. -/
def redirectResp (url : String) : Resp :=
  { status := 302, headers := [("Location", url)], body := "" }

/-- The fixed external icon URL of the favicon redirect. -/
def faviconUrl : String := "https://jacklehamster.github.io/stt-worker/icon.png"

/-- One character of the standard base64 alphabet, indexed 0 to 63. -/
def base64Char (n : Nat) : Char :=
  if n < 26 then Char.ofNat (65 + n)
  else if n < 52 then Char.ofNat (97 + (n - 26))
  else if n < 62 then Char.ofNat (48 + (n - 52))
  else if n = 62 then Char.ofNat 43
  else Char.ofNat 47

/-- RFC 4648 base64 encoding of a byte list (values taken mod 256), with
`=` padding: the common algorithm behind both `btoa` and
`Buffer.toString("base64")`. -/
def base64Encode : List Nat → String
  | [] => ""
  | [a] =>
    let a := a % 256
    String.mk [base64Char (a / 4), base64Char (a % 4 * 16), Char.ofNat 61, Char.ofNat 61]
  | [a, b] =>
    let a := a % 256
    let b := b % 256
    String.mk [base64Char (a / 4), base64Char (a % 4 * 16 + b / 16),
      base64Char (b % 16 * 4), Char.ofNat 61]
  | a :: b :: c :: rest =>
    let x := a % 256
    let y := b % 256
    let z := c % 256
    String.mk [base64Char (x / 4), base64Char (x % 4 * 16 + y / 16),
      base64Char (y % 16 * 4 + z / 64), base64Char (z % 64)] ++ base64Encode rest

/-- `String.fromCharCode(...bytes)`: each argument is converted to a
UTF-16 code unit (ToUint16, i.e. mod 2^16); the result is the list of
code units of the produced string. -/
def fromCharCode (bs : List Nat) : List Nat :=
  bs.map (fun b => b % 65536)

/-- `btoa(s)` on a string with the given code units: throws
(`none`) when a code unit exceeds 255, else base64-encodes the code
units as bytes. -/
def btoa (codeUnits : List Nat) : Option String :=
  if codeUnits.all (fun c => decide (c < 256)) then some (base64Encode codeUnits) else none

/-- `Buffer.from(arrayBuffer).toString("base64")`: base64 of the raw
bytes of the buffer. -/
def bufferBase64 (bs : List Nat) : String := base64Encode bs

/-- One transcript alternative of the speech-API JSON answer:
`{ transcript?: string }`. -/
structure SttAlternative where
  transcript : Option String
deriving DecidableEq, Repr

/-- One result of the speech-API JSON answer:
`{ alternatives?: [...] }`. -/
structure SttResult where
  alternatives : Option (List SttAlternative)
deriving DecidableEq, Repr

/-- The speech-API JSON answer: `{ results?: [...] }`. -/
structure SttJson where
  results : Option (List SttResult)
deriving DecidableEq, Repr

/-- The optional chain `result.results?.[0]?.alternatives?.[0]?.transcript`:
`none` models `undefined` at any step. -/
def firstTranscript (r : SttJson) : Option String :=
  (((r.results.bind List.head?).bind SttResult.alternatives).bind List.head?).bind
    SttAlternative.transcript

/-- The fixed fallback transcript of the source. -/
def fallbackText : String := "No transcription available"

/-- JavaScript `a || d` for an optional string `a`: the fallback `d` is
taken when `a` is `undefined` or falsy (the empty string). -/
def jsOrString (a : Option String) (d : String) : String :=
  match a with
  | some s => if s = "" then d else s
  | none => d

/-- `result.results?.[0]?.alternatives?.[0]?.transcript || "No transcription available"`. -/
def extractTranscript (r : SttJson) : String :=
  jsOrString (firstTranscript r) fallbackText

/-- Hexadecimal digit (lowercase), for JSON escapes of control characters. -/
def hexDigit (n : Nat) : Char :=
  if n < 10 then Char.ofNat (48 + n) else Char.ofNat (87 + n)

/-- JSON.stringify escaping of one character of a string value. -/
def jsonEscapeChar (c : Char) : String :=
  if c = Char.ofNat 34 then String.mk [Char.ofNat 92, Char.ofNat 34]
  else if c = Char.ofNat 92 then String.mk [Char.ofNat 92, Char.ofNat 92]
  else if c = Char.ofNat 8 then "\\b"
  else if c = Char.ofNat 12 then "\\f"
  else if c = Char.ofNat 10 then "\\n"
  else if c = Char.ofNat 13 then "\\r"
  else if c = Char.ofNat 9 then "\\t"
  else if c.toNat < 32 then
    "\\u00" ++ String.mk [hexDigit (c.toNat / 16), hexDigit (c.toNat % 16)]
  else String.singleton c

/-- JSON.stringify of a string value: quoted and escaped. -/
def jsonQuote (s : String) : String :=
  "\"" ++ String.join (s.data.map jsonEscapeChar) ++ "\""

/-- `JSON.stringify(\x7b text: t \x7d)`: the success-response body. -/
def textJson (t : String) : String :=
  "\x7b\"text\":" ++ jsonQuote t ++ "\x7d"

/-- `JSON.stringify(payload)` for the fixed speech-API payload with the
given base64 audio content: fixed config `encoding: "MP3"`,
`sampleRateHertz: 16000`, `languageCode: "en-US"`. -/
def payloadJson (audioBase64 : String) : String :=
  "\x7b\"config\":\x7b\"encoding\":\"MP3\",\"sampleRateHertz\":16000,\"languageCode\":\"en-US\"\x7d,\"audio\":\x7b\"content\":"
    ++ jsonQuote audioBase64 ++ "\x7d\x7d"

/-- Outcome of the outbound `fetch` to the speech API: a thrown network
error with its message, or a response with its `ok` flag, its `text()`
body (read on the error path) and its parsed `json()` body (read on the
success path). -/
inductive SttOutcome where
  | netErr (msg : String)
  | resp (ok : Bool) (errorText : String) (json : SttJson)
deriving DecidableEq, Repr

/-- The stubbed outbound speech-API call: a function of the bearer token
(sent as `Authorization: Bearer <token>`) and of the JSON request body. -/
def SttFetch : Type := String → String → SttOutcome

/-- The stubbed token exchange `getAuthToken(credentials)`: `none` models
the unhandled exception on malformed credentials or signing failure. -/
def TokenExchange : Type := String → Option String

/-- The 405 response body of the source. -/
def methodNotAllowedBody : String := "Method not allowed. Use POST with audio data."

/-- The HTML demo page of the first handler version (lines 14 to 95),
with recording buttons, a file-upload control and the upload script. -/
def htmlPage1 : String := "
        <!DOCTYPE html>
        <html>
        <head>
          <title>Speech-to-Text</title>
          <style>
            body \x7b font-family: Arial, sans-serif; padding: 20px; \x7d
            pre \x7b background: #f0f0f0; padding: 10px; \x7d
            button \x7b margin: 5px; \x7d
          </style>
        </head>
        <body>
          <h1>Speech-to-Text Demo</h1>
          <button id=\"recordButton\">Start Recording</button>
          <button id=\"stopButton\" disabled>Stop Recording</button>
          <input type=\"file\" id=\"audioFile\" accept=\"audio/*\">
          <button onclick=\"uploadFile()\">Transcribe File</button>
          <pre id=\"result\">Transcription will appear here...</pre>

          <script>
            let mediaRecorder;
            let audioChunks = [];

            // Microphone recording
            document.getElementById(\"recordButton\").addEventListener(\"click\", async () => \x7b
              const stream = await navigator.mediaDevices.getUserMedia(\x7b audio: true \x7d);
              mediaRecorder = new MediaRecorder(stream, \x7b mimeType: \"audio/webm;codecs=opus\" \x7d);

              mediaRecorder.ondataavailable = (event) => \x7b
                audioChunks.push(event.data);
              \x7d;

              mediaRecorder.onstop = async () => \x7b
                const audioBlob = new Blob(audioChunks, \x7b type: \"audio/webm;codecs=opus\" \x7d);
                audioChunks = []; // Reset for next recording
                await uploadAudio(audioBlob);
                stream.getTracks().forEach(track => track.stop()); // Stop microphone
              \x7d;

              audioChunks = [];
              mediaRecorder.start();
              document.getElementById(\"recordButton\").disabled = true;
              document.getElementById(\"stopButton\").disabled = false;
            \x7d);

            document.getElementById(\"stopButton\").addEventListener(\"click\", () => \x7b
              mediaRecorder.stop();
              document.getElementById(\"recordButton\").disabled = false;
              document.getElementById(\"stopButton\").disabled = true;
            \x7d);

            // File upload (existing functionality)
            async function uploadFile() \x7b
              const fileInput = document.getElementById(\"audioFile\");
              const file = fileInput.files[0];
              if (!file) \x7b
                alert(\"Please select an audio file\");
                return;
              \x7d
              await uploadAudio(file);
            \x7d

            // Shared upload function
            async function uploadAudio(audioBlob) \x7b
              const response = await fetch(\"\", \x7b
                method: \"POST\",
                body: audioBlob,
                headers: \x7b \"Content-Type\": audioBlob.type \x7d,
              \x7d);

              if (!response.ok) \x7b
                alert(\"Error transcribing audio\");
                return;
              \x7d

              const \x7b text \x7d = await response.json();
              document.getElementById(\"result\").textContent = text;
            \x7d
          </script>
        </body>
        </html>
      "

/-- The HTML demo page of the second handler version (lines 195 to 237),
file upload only. -/
def htmlPage2 : String := "
        <!DOCTYPE html>
        <html>
        <head>
          <title>Speech-to-Text</title>
          <style>
            body \x7b font-family: Arial, sans-serif; padding: 20px; \x7d
            pre \x7b background: #f0f0f0; padding: 10px; \x7d
          </style>
        </head>
        <body>
          <h1>Speech-to-Text Demo</h1>
          <input type=\"file\" id=\"audioFile\" accept=\"audio/*\">
          <button onclick=\"uploadAudio()\">Transcribe</button>
          <pre id=\"result\">Transcription will appear here...</pre>

          <script>
            async function uploadAudio() \x7b
              const fileInput = document.getElementById(\"audioFile\");
              const file = fileInput.files[0];
              if (!file) \x7b
                alert(\"Please select an audio file\");
                return;
              \x7d

              const response = await fetch(\"\", \x7b
                method: \"POST\",
                body: file,
                headers: \x7b \"Content-Type\": file.type \x7d,
              \x7d);

              if (!response.ok) \x7b
                alert(\"Error transcribing audio\");
                return;
              \x7d

              const \x7b text \x7d = await response.json();
              document.getElementById(\"result\").textContent = text;
            \x7d
          </script>
        </body>
        </html>
      "

/-- The first handler version (`fetch`, source lines 4 to 168).
Branches in source order: favicon redirect, `GET /` page, 405 for
non-POST, 500 on missing credentials, 400 on empty body, then base64 via
`String.fromCharCode` and `btoa`, token exchange, outbound call, and the
503 / 500 / 200 answers. `none` models an exception escaping the
handler (token-exchange failure, or a `btoa` range error). -/
def handler1 (req : Req) (env : Env) (tok : TokenExchange) (stt : SttFetch) : Option Resp :=
  if req.pathname = "/favicon.ico" then
    some (redirectResp faviconUrl)
  else if req.method = "GET" ∧ req.pathname = "/" then
    some { status := 200,
           headers := [("Content-Type", "text/html"), ("Cache-Control", "public, max-age=3600")],
           body := htmlPage1 }
  else if req.method ≠ "POST" then
    some { status := 405, headers := [("Content-Type", "text/plain")],
           body := methodNotAllowedBody }
  else if !(jsTruthyStr env.SHEETS_SERVICE_KEY_JSON) then
    some { status := 500, headers := [], body := "Missing service credentials" }
  else if req.body.length = 0 then
    some { status := 400, headers := [], body := "No audio data provided" }
  else
    match btoa (fromCharCode req.body) with
    | none => none
    | some audioBase64 =>
      match tok (env.SHEETS_SERVICE_KEY_JSON.getD "") with
      | none => none
      | some authToken =>
        match stt authToken (payloadJson audioBase64) with
        | SttOutcome.netErr msg =>
          some { status := 503, headers := [], body := "Fetch error: " ++ msg }
        | SttOutcome.resp ok errorText json =>
          if !ok then
            some { status := 500, headers := [], body := "STT API error: " ++ errorText }
          else
            some { status := 200,
                   headers := [("Content-Type", "application/json"), ("Cache-Control", "no-store")],
                   body := textJson (extractTranscript json) }

/-- The second handler version (`fetch`, source lines 185 to 306).
Identical branching; differs only in the HTML page (no recording UI, no
`Cache-Control` header on it) and in the base64 step, which uses
`Buffer.from(audioBuffer).toString("base64")`. -/
def handler2 (req : Req) (env : Env) (tok : TokenExchange) (stt : SttFetch) : Option Resp :=
  if req.pathname = "/favicon.ico" then
    some (redirectResp faviconUrl)
  else if req.method = "GET" ∧ req.pathname = "/" then
    some { status := 200, headers := [("Content-Type", "text/html")], body := htmlPage2 }
  else if req.method ≠ "POST" then
    some { status := 405, headers := [("Content-Type", "text/plain")],
           body := methodNotAllowedBody }
  else if !(jsTruthyStr env.SHEETS_SERVICE_KEY_JSON) then
    some { status := 500, headers := [], body := "Missing service credentials" }
  else if req.body.length = 0 then
    some { status := 400, headers := [], body := "No audio data provided" }
  else
    let audioBase64 := bufferBase64 req.body
    match tok (env.SHEETS_SERVICE_KEY_JSON.getD "") with
    | none => none
    | some authToken =>
      match stt authToken (payloadJson audioBase64) with
      | SttOutcome.netErr msg =>
        some { status := 503, headers := [], body := "Fetch error: " ++ msg }
      | SttOutcome.resp ok errorText json =>
        if !ok then
          some { status := 500, headers := [], body := "STT API error: " ++ errorText }
        else
          some { status := 200,
                 headers := [("Content-Type", "application/json"), ("Cache-Control", "no-store")],
                 body := textJson (extractTranscript json) }

theorem fromCharCode_eq_self (bs : List Nat) (h : ∀ b ∈ bs, b < 256) :
    fromCharCode bs = bs := by
  unfold fromCharCode
  induction bs with
  | nil => rfl
  | cons a t ih =>
    have ha : a % 65536 = a := Nat.mod_eq_of_lt (by have := h a (by simp); omega)
    simp only [List.map_cons, ha, List.cons.injEq, true_and]
    exact ih (fun b hb => h b (by simp [hb]))

theorem btoa_fromCharCode (bs : List Nat) (h : ∀ b ∈ bs, b < 256) :
    btoa (fromCharCode bs) = some (bufferBase64 bs) := by
  rw [fromCharCode_eq_self bs h]
  unfold btoa bufferBase64
  rw [if_pos]
  rw [List.all_eq_true]
  exact fun c hc => decide_eq_true (h c hc)

theorem handler1_post (req : Req) (env : Env) (tok : TokenExchange) (stt : SttFetch)
    (hp : req.pathname ≠ "/favicon.ico") (hm : req.method = "POST")
    (hc : jsTruthyStr env.SHEETS_SERVICE_KEY_JSON = true)
    (hb : req.body.length ≠ 0) (hbytes : ∀ b ∈ req.body, b < 256) :
    handler1 req env tok stt =
      match tok (env.SHEETS_SERVICE_KEY_JSON.getD "") with
      | none => none
      | some authToken =>
        match stt authToken (payloadJson (bufferBase64 req.body)) with
        | SttOutcome.netErr msg =>
          some { status := 503, headers := [], body := "Fetch error: " ++ msg }
        | SttOutcome.resp ok errorText json =>
          if !ok then
            some { status := 500, headers := [], body := "STT API error: " ++ errorText }
          else
            some { status := 200,
                   headers := [("Content-Type", "application/json"), ("Cache-Control", "no-store")],
                   body := textJson (extractTranscript json) } := by
  unfold handler1
  rw [if_neg hp, if_neg (fun h => absurd (hm.symm.trans h.1) (by decide)),
    if_neg (fun h => h hm), if_neg (by simp [hc]), if_neg hb,
    btoa_fromCharCode req.body hbytes]

/-- Claim C1 counterexample: a POST request with an empty body and no
configured credentials is answered 500 "Missing service credentials",
not 400 "No audio data provided": in the source the credentials check
(line 112) precedes the empty-body check (line 117), so the 400 does
not hold regardless of configured credentials. -/
theorem claim1_counterexample :
    ∃ r, handler1 { method := "POST", pathname := "/", search := "", headers := [], body := [] }
        { SHEETS_SERVICE_KEY_JSON := none } (fun _ => none) (fun _ _ => SttOutcome.netErr "boom")
        = some r ∧ ¬(r.status = 400 ∧ r.body = "No audio data provided") := by
  refine ⟨{ status := 500, headers := [], body := "Missing service credentials" }, rfl, ?_⟩
  decide

/-- Claim C1 (amended): for every POST request to a non-favicon path
with the credentials configuration value present (truthy), an empty
body is answered 400 with the plain-text body "No audio data provided". -/
theorem claim1_empty_body_400 (req : Req) (env : Env) (tok : TokenExchange) (stt : SttFetch)
    (hm : req.method = "POST") (hp : req.pathname ≠ "/favicon.ico")
    (hc : jsTruthyStr env.SHEETS_SERVICE_KEY_JSON = true) (hb : req.body = []) :
    handler1 req env tok stt =
      some { status := 400, headers := [], body := "No audio data provided" } := by
  unfold handler1
  rw [if_neg hp, if_neg (fun h => absurd (hm.symm.trans h.1) (by decide)),
    if_neg (fun h => h hm), if_neg (by simp [hc]), if_pos (by simp [hb])]

/-- Witness for the amended claim C1 at a concrete empty-body POST. -/
theorem claim1_empty_body_400_witness :
    handler1 { method := "POST", pathname := "/", search := "", headers := [], body := [] }
      { SHEETS_SERVICE_KEY_JSON := some "key" } (fun _ => none) (fun _ _ => SttOutcome.netErr "x")
      = some { status := 400, headers := [], body := "No audio data provided" } :=
  claim1_empty_body_400 _ _ _ _ rfl (by decide) (by decide) rfl

/-- Claim C2: a POST request to a non-favicon path with a 10-byte body,
credentials configured, the token exchange succeeding, and the stubbed
speech API answering with one alternative whose transcript is "hello"
on the actual outbound call, is answered with status 200 and exactly
the JSON body `\x7b"text":"hello"\x7d`. -/
theorem claim2_hello_scenario (req : Req) (env : Env) (tok : TokenExchange) (stt : SttFetch)
    (t : String)
    (hm : req.method = "POST") (hp : req.pathname ≠ "/favicon.ico")
    (hlen : req.body.length = 10) (hbytes : ∀ b ∈ req.body, b < 256)
    (hc : jsTruthyStr env.SHEETS_SERVICE_KEY_JSON = true)
    (ht : tok (env.SHEETS_SERVICE_KEY_JSON.getD "") = some t)
    (hstt : stt t (payloadJson (bufferBase64 req.body)) =
      SttOutcome.resp true ""
        { results := some [{ alternatives := some [{ transcript := some "hello" }] }] }) :
    handler1 req env tok stt =
      some { status := 200,
             headers := [("Content-Type", "application/json"), ("Cache-Control", "no-store")],
             body := "\x7b\"text\":\"hello\"\x7d" } := by
  rw [handler1_post req env tok stt hp hm hc (by omega) hbytes]
  simp only [ht, hstt]
  rfl

/-- Witness for claim C2 at a concrete 10-byte body. -/
theorem claim2_hello_scenario_witness :
    handler1 { method := "POST", pathname := "/", search := "",
               headers := [("Content-Type", "audio/mpeg")], body := [0, 1, 2, 3, 4, 5, 6, 7, 8, 9] }
      { SHEETS_SERVICE_KEY_JSON := some "key" } (fun _ => some "tok123")
      (fun _ _ => SttOutcome.resp true ""
        { results := some [{ alternatives := some [{ transcript := some "hello" }] }] })
      = some { status := 200,
               headers := [("Content-Type", "application/json"), ("Cache-Control", "no-store")],
               body := "\x7b\"text\":\"hello\"\x7d" } :=
  claim2_hello_scenario _ _ _ _ "tok123" rfl (by decide) rfl (by decide) (by decide) rfl rfl

/-- Claim C3: every POST request (non-favicon path, non-empty body,
credentials configured, token exchange succeeding) on which the
external API call succeeds is answered 200 with the JSON body
`\x7b"text": ...\x7d` and the `Cache-Control: no-store` header; the body
depends only on the chain `results[0].alternatives[0].transcript` of
the API answer, and when that chain is absent the text is exactly the
fallback string "No transcription available". -/
theorem claim3_success_shape (req : Req) (env : Env) (tok : TokenExchange) (stt : SttFetch)
    (t et : String) (j : SttJson)
    (hm : req.method = "POST") (hp : req.pathname ≠ "/favicon.ico")
    (hb : req.body ≠ []) (hbytes : ∀ b ∈ req.body, b < 256)
    (hc : jsTruthyStr env.SHEETS_SERVICE_KEY_JSON = true)
    (ht : tok (env.SHEETS_SERVICE_KEY_JSON.getD "") = some t)
    (hstt : stt t (payloadJson (bufferBase64 req.body)) = SttOutcome.resp true et j) :
    handler1 req env tok stt =
      some { status := 200,
             headers := [("Content-Type", "application/json"), ("Cache-Control", "no-store")],
             body := textJson (jsOrString (firstTranscript j) fallbackText) }
    ∧ (firstTranscript j = none →
        handler1 req env tok stt =
          some { status := 200,
                 headers := [("Content-Type", "application/json"), ("Cache-Control", "no-store")],
                 body := textJson "No transcription available" }) := by
  have hmain : handler1 req env tok stt =
      some { status := 200,
             headers := [("Content-Type", "application/json"), ("Cache-Control", "no-store")],
             body := textJson (jsOrString (firstTranscript j) fallbackText) } := by
    rw [handler1_post req env tok stt hp hm hc (fun h => hb (List.length_eq_zero.mp h)) hbytes]
    simp only [ht, hstt]
    rfl
  refine ⟨hmain, fun hj => ?_⟩
  rw [hmain, hj]
  rfl

/-- Witness for claim C3 at a concrete body and a transcript-free API
answer. -/
theorem claim3_success_shape_witness :
    (handler1 { method := "POST", pathname := "/", search := "", headers := [], body := [255] }
        { SHEETS_SERVICE_KEY_JSON := some "key" } (fun _ => some "tok")
        (fun _ _ => SttOutcome.resp true "unused" { results := none })
      = some { status := 200,
               headers := [("Content-Type", "application/json"), ("Cache-Control", "no-store")],
               body := textJson (jsOrString (firstTranscript { results := none }) fallbackText) })
    ∧ (firstTranscript { results := none } = none →
        handler1 { method := "POST", pathname := "/", search := "", headers := [], body := [255] }
          { SHEETS_SERVICE_KEY_JSON := some "key" } (fun _ => some "tok")
          (fun _ _ => SttOutcome.resp true "unused" { results := none })
        = some { status := 200,
                 headers := [("Content-Type", "application/json"), ("Cache-Control", "no-store")],
                 body := textJson "No transcription available" }) :=
  claim3_success_shape _ _ _ _ "tok" "unused" { results := none }
    rfl (by decide) (by decide) (by decide) (by decide) rfl rfl

/-- Claim C4: every POST request (non-favicon path, non-empty body,
credentials configured, token exchange succeeding) on which the
outbound call throws a network error is answered 503 with the body
"Fetch error: " followed by the underlying error message — so the body
starts with "Fetch error:" and includes the underlying error text. -/
theorem claim4_fetch_error (req : Req) (env : Env) (tok : TokenExchange) (stt : SttFetch)
    (t msg : String)
    (hm : req.method = "POST") (hp : req.pathname ≠ "/favicon.ico")
    (hb : req.body ≠ []) (hbytes : ∀ b ∈ req.body, b < 256)
    (hc : jsTruthyStr env.SHEETS_SERVICE_KEY_JSON = true)
    (ht : tok (env.SHEETS_SERVICE_KEY_JSON.getD "") = some t)
    (hstt : stt t (payloadJson (bufferBase64 req.body)) = SttOutcome.netErr msg) :
    handler1 req env tok stt =
      some { status := 503, headers := [], body := "Fetch error: " ++ msg }
    ∧ "Fetch error: " ++ msg = "Fetch error:" ++ (" " ++ msg) := by
  constructor
  · rw [handler1_post req env tok stt hp hm hc (fun h => hb (List.length_eq_zero.mp h)) hbytes]
    simp only [ht, hstt]
  · rw [← String.append_assoc]
    congr 1

/-- Witness for claim C4 at a concrete network failure. -/
theorem claim4_fetch_error_witness :
    (handler1 { method := "POST", pathname := "/", search := "", headers := [], body := [42] }
        { SHEETS_SERVICE_KEY_JSON := some "key" } (fun _ => some "tok")
        (fun _ _ => SttOutcome.netErr "connection reset")
      = some { status := 503, headers := [], body := "Fetch error: " ++ "connection reset" })
    ∧ "Fetch error: " ++ "connection reset" = "Fetch error:" ++ (" " ++ "connection reset") :=
  claim4_fetch_error _ _ _ _ "tok" "connection reset"
    rfl (by decide) (by decide) (by decide) (by decide) rfl rfl

/-- Claim C5: every POST request (non-favicon path, non-empty body,
credentials configured, token exchange succeeding) on which the
external API answers with a non-success HTTP status is answered 500
with the body "STT API error: " followed by the raw error text of the
API answer. -/
theorem claim5_api_error (req : Req) (env : Env) (tok : TokenExchange) (stt : SttFetch)
    (t et : String) (j : SttJson)
    (hm : req.method = "POST") (hp : req.pathname ≠ "/favicon.ico")
    (hb : req.body ≠ []) (hbytes : ∀ b ∈ req.body, b < 256)
    (hc : jsTruthyStr env.SHEETS_SERVICE_KEY_JSON = true)
    (ht : tok (env.SHEETS_SERVICE_KEY_JSON.getD "") = some t)
    (hstt : stt t (payloadJson (bufferBase64 req.body)) = SttOutcome.resp false et j) :
    handler1 req env tok stt =
      some { status := 500, headers := [], body := "STT API error: " ++ et } := by
  rw [handler1_post req env tok stt hp hm hc (fun h => hb (List.length_eq_zero.mp h)) hbytes]
  simp only [ht, hstt]
  rfl

/-- Witness for claim C5 at a concrete 403-style API error. -/
theorem claim5_api_error_witness :
    handler1 { method := "POST", pathname := "/", search := "", headers := [], body := [42] }
      { SHEETS_SERVICE_KEY_JSON := some "key" } (fun _ => some "tok")
      (fun _ _ => SttOutcome.resp false "PERMISSION_DENIED" { results := none })
      = some { status := 500, headers := [], body := "STT API error: " ++ "PERMISSION_DENIED" } :=
  claim5_api_error _ _ _ _ "tok" "PERMISSION_DENIED" { results := none }
    rfl (by decide) (by decide) (by decide) (by decide) rfl rfl

/-- Claim C6 counterexample: a POST request to /favicon.ico with the
credentials configuration absent is answered with the 302 redirect, not
with 500 "Missing service credentials": the favicon branch (line 8)
precedes the method and credentials checks, so the claim does not hold
for every POST request. -/
theorem claim6_counterexample :
    ∃ r, handler1 { method := "POST", pathname := "/favicon.ico", search := "", headers := [], body := [7] }
        { SHEETS_SERVICE_KEY_JSON := none } (fun _ => none) (fun _ _ => SttOutcome.netErr "x")
        = some r ∧ ¬(r.status = 500 ∧ r.body = "Missing service credentials") := by
  refine ⟨redirectResp faviconUrl, rfl, ?_⟩
  decide

/-- Claim C6 (amended): every POST request to a non-favicon path with
the credentials configuration value absent is answered 500 with exactly
the fixed body "Missing service credentials", whatever the body. -/
theorem claim6_missing_credentials (req : Req) (env : Env) (tok : TokenExchange) (stt : SttFetch)
    (hm : req.method = "POST") (hp : req.pathname ≠ "/favicon.ico")
    (hc : env.SHEETS_SERVICE_KEY_JSON = none) :
    handler1 req env tok stt =
      some { status := 500, headers := [], body := "Missing service credentials" } := by
  unfold handler1
  rw [if_neg hp, if_neg (fun h => absurd (hm.symm.trans h.1) (by decide)),
    if_neg (fun h => h hm), if_pos (by simp [hc, jsTruthyStr])]

/-- Witness for the amended claim C6 at a concrete credential-less POST. -/
theorem claim6_missing_credentials_witness :
    handler1 { method := "POST", pathname := "/", search := "", headers := [], body := [1, 2, 3] }
      { SHEETS_SERVICE_KEY_JSON := none } (fun _ => none) (fun _ _ => SttOutcome.netErr "x")
      = some { status := 500, headers := [], body := "Missing service credentials" } :=
  claim6_missing_credentials _ _ _ _ rfl (by decide) rfl

/-- Claim C7 counterexample: a PUT request to /x is answered 405, but
its body is "Method not allowed. Use POST with audio data.", not the
plain string "Method not allowed" the claim states. -/
theorem claim7_counterexample :
    ∃ r, handler1 { method := "PUT", pathname := "/x", search := "", headers := [], body := [] }
        { SHEETS_SERVICE_KEY_JSON := none } (fun _ => none) (fun _ _ => SttOutcome.netErr "x")
        = some r ∧ r.status = 405 ∧ r.body ≠ "Method not allowed" := by
  refine ⟨{ status := 405, headers := [("Content-Type", "text/plain")], body := methodNotAllowedBody },
    rfl, rfl, ?_⟩
  decide

/-- Claim C7 (amended): every request whose path is not the favicon
path, that is not a GET to the root path, and whose method is not POST,
is answered 405 with content type text/plain and the body
"Method not allowed. Use POST with audio data." — which extends the
claimed text "Method not allowed". -/
theorem claim7_method_not_allowed (req : Req) (env : Env) (tok : TokenExchange) (stt : SttFetch)
    (hp : req.pathname ≠ "/favicon.ico")
    (hroot : ¬(req.method = "GET" ∧ req.pathname = "/"))
    (hm : req.method ≠ "POST") :
    handler1 req env tok stt =
      some { status := 405, headers := [("Content-Type", "text/plain")], body := methodNotAllowedBody }
    ∧ methodNotAllowedBody = "Method not allowed" ++ ". Use POST with audio data." := by
  constructor
  · unfold handler1
    rw [if_neg hp, if_neg hroot, if_pos hm]
  · rfl

/-- Witness for the amended claim C7 at a concrete PUT request. -/
theorem claim7_method_not_allowed_witness :
    (handler1 { method := "PUT", pathname := "/", search := "a=b", headers := [], body := [1] }
        { SHEETS_SERVICE_KEY_JSON := some "key" } (fun _ => some "tok") (fun _ _ => SttOutcome.netErr "x")
      = some { status := 405, headers := [("Content-Type", "text/plain")], body := methodNotAllowedBody })
    ∧ methodNotAllowedBody = "Method not allowed" ++ ". Use POST with audio data." :=
  claim7_method_not_allowed _ _ _ _ (by decide) (by decide) (by decide)

/-- Claim C8: every request whose path is /favicon.ico — any method,
query string, headers, body, environment or stub behaviour — is
answered with a 302 redirect whose Location header is the fixed
external image URL. -/
theorem claim8_favicon_redirect (req : Req) (env : Env) (tok : TokenExchange) (stt : SttFetch)
    (hp : req.pathname = "/favicon.ico") :
    handler1 req env tok stt =
      some { status := 302, headers := [("Location", faviconUrl)], body := "" } := by
  unfold handler1
  rw [if_pos hp]
  rfl

/-- Witness for claim C8 at a concrete DELETE request with a query
string and headers. -/
theorem claim8_favicon_redirect_witness :
    handler1 { method := "DELETE", pathname := "/favicon.ico", search := "v=1&x=y",
               headers := [("X-Whatever", "z"), ("Accept", "image/png")], body := [9] }
      { SHEETS_SERVICE_KEY_JSON := none } (fun _ => none) (fun _ _ => SttOutcome.netErr "x")
      = some { status := 302, headers := [("Location", faviconUrl)], body := "" } :=
  claim8_favicon_redirect _ _ _ _ rfl

/-- Claim C9: when the API answer has a first transcript alternative
whose transcript is present but equal to the empty string, the success
response still carries the fallback text "No transcription available":
the JavaScript `||` falls back on any falsy transcript, not only on an
absent one. -/
theorem claim9_empty_transcript_fallback (req : Req) (env : Env) (tok : TokenExchange) (stt : SttFetch)
    (t et : String) (j : SttJson)
    (hm : req.method = "POST") (hp : req.pathname ≠ "/favicon.ico")
    (hb : req.body ≠ []) (hbytes : ∀ b ∈ req.body, b < 256)
    (hc : jsTruthyStr env.SHEETS_SERVICE_KEY_JSON = true)
    (ht : tok (env.SHEETS_SERVICE_KEY_JSON.getD "") = some t)
    (hstt : stt t (payloadJson (bufferBase64 req.body)) = SttOutcome.resp true et j)
    (hj : firstTranscript j = some "") :
    handler1 req env tok stt =
      some { status := 200,
             headers := [("Content-Type", "application/json"), ("Cache-Control", "no-store")],
             body := textJson "No transcription available" } := by
  rw [handler1_post req env tok stt hp hm hc (fun h => hb (List.length_eq_zero.mp h)) hbytes]
  simp only [ht, hstt, extractTranscript, hj]
  rfl

/-- Witness for claim C9 at a concrete empty-transcript API answer. -/
theorem claim9_empty_transcript_fallback_witness :
    handler1 { method := "POST", pathname := "/", search := "", headers := [], body := [5, 6] }
      { SHEETS_SERVICE_KEY_JSON := some "key" } (fun _ => some "tok")
      (fun _ _ => SttOutcome.resp true ""
        { results := some [{ alternatives := some [{ transcript := some "" }] }] })
      = some { status := 200,
               headers := [("Content-Type", "application/json"), ("Cache-Control", "no-store")],
               body := textJson "No transcription available" } :=
  claim9_empty_transcript_fallback _ _ _ _ "tok" ""
    { results := some [{ alternatives := some [{ transcript := some "" }] }] }
    rfl (by decide) (by decide) (by decide) (by decide) rfl rfl rfl

/-- Claim C10: for every request that is not a GET to the root path,
the two handler versions of the source file produce identical responses
given the same environment, token exchange and external-API behaviour;
in particular the two base64 encodings — `btoa` over
`String.fromCharCode(...bytes)` and `Buffer.toString("base64")` — agree
on every byte sequence. -/
theorem claim10_variants_agree (req : Req) (env : Env) (tok : TokenExchange) (stt : SttFetch)
    (hroot : ¬(req.method = "GET" ∧ req.pathname = "/"))
    (hbytes : ∀ b ∈ req.body, b < 256) :
    handler1 req env tok stt = handler2 req env tok stt
    ∧ btoa (fromCharCode req.body) = some (bufferBase64 req.body) := by
  refine ⟨?_, btoa_fromCharCode req.body hbytes⟩
  unfold handler1 handler2
  by_cases hfav : req.pathname = "/favicon.ico"
  · rw [if_pos hfav, if_pos hfav]
  · rw [if_neg hfav, if_neg hfav, if_neg hroot, if_neg hroot]
    by_cases hpost : req.method = "POST"
    · have hnp : ¬(req.method ≠ "POST") := fun h => h hpost
      rw [if_neg hnp, if_neg hnp]
      by_cases hcred : jsTruthyStr env.SHEETS_SERVICE_KEY_JSON = true
      · have hnc : ¬((!jsTruthyStr env.SHEETS_SERVICE_KEY_JSON) = true) := by simp [hcred]
        rw [if_neg hnc, if_neg hnc]
        by_cases hlen : req.body.length = 0
        · rw [if_pos hlen, if_pos hlen]
        · rw [if_neg hlen, if_neg hlen, btoa_fromCharCode req.body hbytes]
      · have hc2 : (!jsTruthyStr env.SHEETS_SERVICE_KEY_JSON) = true := by
          have hcf : jsTruthyStr env.SHEETS_SERVICE_KEY_JSON = false := by simpa using hcred
          simp [hcf]
        rw [if_pos hc2, if_pos hc2]
    · have hnp : req.method ≠ "POST" := hpost
      rw [if_pos hnp, if_pos hnp]

/-- Witness for claim C10 at a concrete non-root POST request. -/
theorem claim10_variants_agree_witness :
    (handler1 { method := "POST", pathname := "/", search := "", headers := [], body := [1, 2, 255] }
        { SHEETS_SERVICE_KEY_JSON := some "key" } (fun _ => some "tok")
        (fun _ _ => SttOutcome.netErr "down")
      = handler2 { method := "POST", pathname := "/", search := "", headers := [], body := [1, 2, 255] }
        { SHEETS_SERVICE_KEY_JSON := some "key" } (fun _ => some "tok")
        (fun _ _ => SttOutcome.netErr "down"))
    ∧ btoa (fromCharCode [1, 2, 255]) = some (bufferBase64 [1, 2, 255]) :=
  claim10_variants_agree _ _ _ _ (by decide) (by decide)
